import Mathlib

/-!
Verification of the Compressor Digital Twin signal-resolution and alarm
engine against its design specification.  Values are modelled as exact
rationals; timestamps as natural-number seconds.
-/

namespace CompressorDT

/-- Quality tag of a resolved value (spec §3, ResolvedValue). -/
inductive Quality
  | LIVE
  | CALCULATED
  | MANUAL
  | DEFAULT
  | BAD
deriving DecidableEq, Repr

/-- Alarm level reported per parameter (spec §3, AlarmState). -/
inductive Level
  | NORMAL
  | L
  | LL
  | H
  | HH
deriving DecidableEq, Repr

/-- Alarm status in the frontend alarms page (`AlarmEvent.status` in AlarmsPage). -/
inductive AckStatus
  | Active
  | Ack
deriving DecidableEq, Repr

/-- Alarm severity in the frontend alarms page. -/
inductive Severity
  | Warning
  | Critical
deriving DecidableEq, Repr

/-- Violation direction in the frontend alarms page. -/
inductive ViolationType
  | High
  | Low
deriving DecidableEq, Repr

/-- The `AlarmEvent` record of the frontend alarms page (part_002, lines 4-14). -/
structure AlarmEventUI where
  id : String
  timestamp : String
  registerId : Nat
  parameterName : String
  value : ℚ
  threshold : ℚ
  vtype : ViolationType
  severity : Severity
  status : AckStatus
deriving DecidableEq, Repr

/-- `acknowledgeAlarm` from AlarmsPage (part_002, lines 57-61):
`setAlarms(prev => prev.map(a => a.id === id ? { ...a, status: 'Ack' } : a))`. -/
def acknowledgeAlarm (id : String) (alarms : List AlarmEventUI) : List AlarmEventUI :=
  alarms.map (fun a => if a.id = id then { a with status := AckStatus.Ack } else a)

/-- The `GasProperties` state of GasPropertiesPage (part_007), restricted to
its numeric fields. -/
structure GasProperties where
  specificGravity : ℚ
  molecularWeight : ℚ
  kSuction : ℚ
  kDischarge : ℚ
  zSuction : ℚ
  zDischarge : ℚ
  gasConstantR : ℚ
deriving DecidableEq, Repr

/-- Rounding to three decimals, modelling JavaScript `parseFloat(R.toFixed(3))`
for the positive values arising in `calculateR`. -/
def round3 (q : ℚ) : ℚ :=
  (⌊q * 1000 + 1 / 2⌋ : ℚ) / 1000

/-- `calculateR` from GasPropertiesPage (part_007, lines 392-397): updates the
gas constant to `1545.35 / molecularWeight` (rounded to 3 decimals) only when
`molecularWeight > 0`; otherwise no state update is performed. -/
def calculateR (props : GasProperties) : GasProperties :=
  if props.molecularWeight > 0 then
    { props with gasConstantR := round3 (30907 / 20 / props.molecularWeight) }
  else
    props

/-- Modelled from the spec: the backend AlarmSetpoint configuration record
(spec §3 and the `alarm_setpoints` table in part_000, lines 163-187; the
evaluator itself is not under src/). LL/L/H/HH thresholds are each optional;
deadband and delay default to 0. -/
structure AlarmSetpoint where
  llValue : Option ℚ
  lValue : Option ℚ
  hValue : Option ℚ
  hhValue : Option ℚ
  deadband : ℚ
  delaySeconds : Nat
  isShutdown : Bool
  isEnabled : Bool
deriving DecidableEq, Repr

/-- Modelled from the spec: high-side activation test with hysteresis
(spec §4.3): raising needs `v` past the threshold; once held, the level stays
active until `v` recrosses the threshold minus the deadband. -/
def highActive (thr d : ℚ) (held : Bool) (v : ℚ) : Bool :=
  if held then decide (thr - d < v) else decide (thr < v)

/-- Modelled from the spec: low-side activation test with hysteresis
(spec §4.3): clearing requires `v` to recross the threshold plus the
deadband. -/
def lowActive (thr d : ℚ) (held : Bool) (v : ℚ) : Bool :=
  if held then decide (v < thr + d) else decide (v < thr)

/-- Activation of an optional threshold: an unconfigured threshold is never
active. -/
def optActive (f : ℚ → Bool) : Option ℚ → Bool
  | some t => f t
  | none => false

/-- Modelled from the spec: target severity of the high-side watcher
(0 = NORMAL, 1 = H, 2 = HH), given the currently confirmed severity `cur`. -/
def highTarget (sp : AlarmSetpoint) (cur : Nat) (v : ℚ) : Nat :=
  if optActive (fun t => highActive t sp.deadband (decide (2 ≤ cur)) v) sp.hhValue then 2
  else if optActive (fun t => highActive t sp.deadband (decide (1 ≤ cur)) v) sp.hValue then 1
  else 0

/-- Modelled from the spec: target severity of the low-side watcher
(0 = NORMAL, 1 = L, 2 = LL). -/
def lowTarget (sp : AlarmSetpoint) (cur : Nat) (v : ℚ) : Nat :=
  if optActive (fun t => lowActive t sp.deadband (decide (2 ≤ cur)) v) sp.llValue then 2
  else if optActive (fun t => lowActive t sp.deadband (decide (1 ≤ cur)) v) sp.lValue then 1
  else 0

/-- One one-sided debounce watcher (spec §3, AlarmState): confirmed severity,
candidate severity, and the timestamp the candidate was first observed. -/
structure WatcherState where
  confirmed : Nat
  candidate : Nat
  candSince : Nat
deriving DecidableEq, Repr

/-- Watcher state on first evaluation: NORMAL, no pending candidate. -/
def initWatcher : WatcherState := ⟨0, 0, 0⟩

/-- Modelled from the spec: one debounce/hysteresis step of a one-sided
watcher (spec §4.3).  The target level becomes candidate immediately; a
changed candidate resets the delay timer to the current time; the candidate is
confirmed (returned as a transition `(old, new)`) once it has been
continuously candidate for at least `delay` seconds; the same rule governs
clearing. -/
def stepWatcher (delay : Nat) (target : Nat → ℚ → Nat) (t : Nat) (v : ℚ)
    (ws : WatcherState) : WatcherState × Option (Nat × Nat) :=
  let tgt := target ws.confirmed v
  let since := if tgt = ws.candidate then ws.candSince else t
  if tgt ≠ ws.confirmed ∧ delay ≤ t - since then
    (⟨tgt, tgt, since⟩, some (ws.confirmed, tgt))
  else
    (⟨ws.confirmed, tgt, since⟩, none)

/-- Alarm transition event emitted on every confirmed transition (spec §3,
AlarmEvent). -/
structure AlarmEvent where
  parameter : String
  oldLevel : Level
  newLevel : Level
  value : ℚ
  isShutdown : Bool
  timestamp : Nat
deriving DecidableEq, Repr

/-- Reported level of a high-side watcher severity. -/
def highLevel : Nat → Level
  | 0 => Level.NORMAL
  | 1 => Level.H
  | _ => Level.HH

/-- Reported level of a low-side watcher severity. -/
def lowLevel : Nat → Level
  | 0 => Level.NORMAL
  | 1 => Level.L
  | _ => Level.LL

/-- Per-parameter evaluator state: the two one-sided watchers plus the
process-wide shutdown flag (spec §4.3). -/
structure EvalState where
  high : WatcherState
  low : WatcherState
  shutdown : Bool
deriving DecidableEq, Repr

/-- Evaluator state before the first cycle. -/
def initEvalState : EvalState := ⟨initWatcher, initWatcher, false⟩

/-- Modelled from the spec: one alarm-evaluation cycle for one parameter
(spec §4.3).  BAD-quality values hold the last confirmed state; disabled
setpoints force both watchers to NORMAL and suppress events; otherwise both
watchers step, events are emitted for confirmed transitions, and a confirmed
non-NORMAL level of an isShutdown setpoint latches the shutdown flag.  The
evaluator never clears the shutdown flag. -/
def stepEval (param : String) (sp : AlarmSetpoint) (t : Nat) (v : ℚ) (q : Quality)
    (s : EvalState) : EvalState × List AlarmEvent :=
  if q = Quality.BAD then (s, [])
  else if sp.isEnabled = false then
    ({ high := ⟨0, 0, t⟩, low := ⟨0, 0, t⟩, shutdown := s.shutdown }, [])
  else
    let hr := stepWatcher sp.delaySeconds (highTarget sp) t v s.high
    let lr := stepWatcher sp.delaySeconds (lowTarget sp) t v s.low
    let evs : List AlarmEvent :=
      (hr.2.map (fun p => AlarmEvent.mk param (highLevel p.1) (highLevel p.2) v sp.isShutdown t)).toList ++
      (lr.2.map (fun p => AlarmEvent.mk param (lowLevel p.1) (lowLevel p.2) v sp.isShutdown t)).toList
    let sd := s.shutdown || (sp.isShutdown && evs.any (fun e => decide (e.newLevel ≠ Level.NORMAL)))
    (⟨hr.1, lr.1, sd⟩, evs)

/-- Evaluation of a timed input trace `(timestamp, value, quality)`. -/
def runEval (param : String) (sp : AlarmSetpoint) (s : EvalState) :
    List (Nat × ℚ × Quality) → EvalState × List AlarmEvent
  | [] => (s, [])
  | (t, v, q) :: rest =>
    let r := stepEval param sp t v q s
    let r2 := runEval param sp r.1 rest
    (r2.1, r.2 ++ r2.2)

/-- Modelled from the spec: the explicit external acknowledgement/reset action
that clears the shutdown flag (spec §4.3); it is not part of the evaluator. -/
def resetShutdown (s : EvalState) : EvalState := { s with shutdown := false }

/-- Overall reported level: the more severe of the two watchers, critical
levels reported over warnings (spec §4.3). -/
def reportedLevel (s : EvalState) : Level :=
  if s.high.confirmed = 2 then Level.HH
  else if s.low.confirmed = 2 then Level.LL
  else if s.high.confirmed = 1 then Level.H
  else if s.low.confirmed = 1 then Level.L
  else Level.NORMAL

/-- The setpoint of the spec's hysteresis test: H = 100, deadband = 5,
delay = 0 (spec §8). -/
def sp2 : AlarmSetpoint := ⟨none, none, some 100, none, 5, 0, false, true⟩

/-- The value trace of the spec's hysteresis test: 90, 101, 99, 96, 94 at one
second apart, all LIVE. -/
def c2Trace : List (Nat × ℚ × Quality) :=
  [(0, 90, Quality.LIVE), (1, 101, Quality.LIVE), (2, 99, Quality.LIVE),
   (3, 96, Quality.LIVE), (4, 94, Quality.LIVE)]

/-- A shutdown-flagged setpoint used as the concrete latch scenario:
H = 100, no deadband, no delay, isShutdown. -/
def spW : AlarmSetpoint := ⟨none, none, some 100, none, 0, 0, true, true⟩

/-- A high-side setpoint family with `delay_seconds = 10` (spec §8, delay
debounce test). -/
def spDelay (thr d : ℚ) (sdf : Bool) : AlarmSetpoint :=
  ⟨none, none, some thr, none, d, 10, sdf, true⟩

/-- Modelled from the spec: pre-parsed expression tree of a calculated
source's formula, over named parameter references (spec §9). -/
inductive Expr
  | const (q : ℚ)
  | param (name : String)
  | add (a b : Expr)
  | sub (a b : Expr)
  | mul (a b : Expr)
  | div (a b : Expr)
deriving DecidableEq, Repr

/-- Modelled from the spec: formula evaluation against the current
resolved-value snapshot; a dependency resolved with quality BAD, a missing
dependency, or a divide-by-zero makes the evaluation fail (spec §4.2, §7). -/
def evalExpr (snap : String → Option (ℚ × Quality)) : Expr → Option ℚ
  | Expr.const q => some q
  | Expr.param n =>
    match snap n with
    | some (v, q) => if q = Quality.BAD then none else some v
    | none => none
  | Expr.add a b =>
    match evalExpr snap a, evalExpr snap b with
    | some x, some y => some (x + y)
    | _, _ => none
  | Expr.sub a b =>
    match evalExpr snap a, evalExpr snap b with
    | some x, some y => some (x - y)
    | _, _ => none
  | Expr.mul a b =>
    match evalExpr snap a, evalExpr snap b with
    | some x, some y => some (x * y)
    | _, _ => none
  | Expr.div a b =>
    match evalExpr snap a, evalExpr snap b with
    | some x, some y => if y = 0 then none else some (x / y)
    | _, _ => none

/-- Parameter names referenced by a formula (compile-time dependency
extraction, spec §9). -/
def exprParams : Expr → List String
  | Expr.const _ => []
  | Expr.param n => [n]
  | Expr.add a b => exprParams a ++ exprParams b
  | Expr.sub a b => exprParams a ++ exprParams b
  | Expr.mul a b => exprParams a ++ exprParams b
  | Expr.div a b => exprParams a ++ exprParams b

/-- Modelled from the spec: the variant of a source candidate
(`data_source_config.source_type` in part_000: modbus / calculated / manual /
default). -/
inductive SourceSpec
  | modbus (registerId : Nat)
  | calculated (formula : Expr)
  | manual
  | defaultConst (value : ℚ)
deriving DecidableEq, Repr

/-- One entry of a parameter's fallback chain (`data_source_config` row:
priority, stale_timeout, source reference). -/
structure SourceCandidate where
  priority : Nat
  staleTimeout : Nat
  source : SourceSpec
deriving DecidableEq, Repr

/-- The per-cycle context the resolver reads: last successful decode per
register (value, read timestamp), latest manual entry per parameter (value,
optional effective_until), and the current resolved snapshot for calculated
dependencies. -/
structure ResolveCtx where
  modbusReads : Nat → Option (ℚ × Nat)
  manualEntry : String → Option (ℚ × Option Nat)
  snapshot : String → Option (ℚ × Quality)

/-- Modelled from the spec: presence/freshness and value of one candidate
(spec §4.2, steps 2-5): Modbus requires the last successful decode no older
than the stale timeout (quality LIVE); calculated evaluates the formula
(quality CALCULATED); manual requires effective_until not passed (quality
MANUAL); a default constant is always fresh (quality DEFAULT). -/
def candValue (parameter : String) (now : Nat) (ctx : ResolveCtx)
    (c : SourceCandidate) : Option (ℚ × Quality) :=
  match c.source with
  | SourceSpec.modbus rid =>
    match ctx.modbusReads rid with
    | some (v, ts) =>
      if now - ts ≤ c.staleTimeout then some (v, Quality.LIVE) else none
    | none => none
  | SourceSpec.calculated e =>
    match evalExpr ctx.snapshot e with
    | some v => some (v, Quality.CALCULATED)
    | none => none
  | SourceSpec.manual =>
    match ctx.manualEntry parameter with
    | some (v, some te) => if now ≤ te then some (v, Quality.MANUAL) else none
    | some (v, none) => some (v, Quality.MANUAL)
    | none => none
  | SourceSpec.defaultConst v => some (v, Quality.DEFAULT)

/-- The resolver's output unit (spec §3, ResolvedValue): parameter name,
numeric value, quality, timestamp, originating source priority, staleness
flag. -/
structure ResolvedValue where
  parameter : String
  value : ℚ
  quality : Quality
  timestamp : Nat
  sourcePriority : Option Nat
  stale : Bool
deriving DecidableEq, Repr

/-- Modelled from the spec: walk the chain in ascending priority order; the
first present-and-fresh candidate wins (spec §4.2, step 6). -/
def resolveFrom (parameter : String) (now : Nat) (ctx : ResolveCtx) :
    List SourceCandidate → Option (ℚ × Quality × Nat)
  | [] => none
  | c :: rest =>
    match candValue parameter now ctx c with
    | some (v, q) => some (v, q, c.priority)
    | none => resolveFrom parameter now ctx rest

/-- Modelled from the spec: resolve one parameter for one cycle; if no
candidate qualifies, quality is BAD, the last-known-good numeric value is
retained (never null) and the staleness flag is set (spec §4.2, step 6). -/
def resolve (parameter : String) (now : Nat) (ctx : ResolveCtx) (lkg : ℚ)
    (chain : List SourceCandidate) : ResolvedValue :=
  match resolveFrom parameter now ctx chain with
  | some (v, q, p) => ⟨parameter, v, q, now, some p, false⟩
  | none => ⟨parameter, lkg, Quality.BAD, now, none, true⟩

/-- Modelled from the spec: the last-known-good cache entry is updated only
when a non-BAD resolution occurs (spec §4.2, side effect). -/
def updateLKG (lkg : ℚ) (rv : ResolvedValue) : ℚ :=
  if rv.quality = Quality.BAD then lkg else rv.value

/-- One published snapshot: consistent timestamp plus all resolved values
(spec §4.4). -/
structure Snapshot where
  timestamp : Nat
  entries : List ResolvedValue
deriving DecidableEq, Repr

/-- Orchestrator-owned state: the last-known-good cache and the published
snapshots (spec §4.4). -/
structure CycleState where
  lkg : String → ℚ
  published : List Snapshot

/-- Modelled from the spec: one orchestrator tick — resolve every parameter,
update the last-known-good cache from non-BAD resolutions, and publish one
new immutable snapshot by appending it (spec §4.4). -/
def cycleStep (chains : List (String × List SourceCandidate)) (now : Nat)
    (ctx : ResolveCtx) (s : CycleState) : CycleState :=
  let entries := chains.map (fun pc => resolve pc.1 now ctx (s.lkg pc.1) pc.2)
  { lkg := fun p =>
      match entries.find? (fun rv => decide (rv.parameter = p)) with
      | some rv => updateLKG (s.lkg p) rv
      | none => s.lkg p,
    published := s.published ++ [⟨now, entries⟩] }

/-- The recognized byte-order tags (`register_map.byte_order` in part_000,
line 90). -/
def validByteOrders : List String := ["AB", "BA", "ABCD", "DCBA", "CDAB", "BADC"]

/-- One row of the register map as loaded (name, address, data type,
byte-order tag). -/
structure RegisterRow where
  name : String
  address : Nat
  dataType : String
  byteOrder : String
deriving DecidableEq, Repr

/-- One `data_source_config` row of a loaded configuration. -/
structure ChainRow where
  parameterName : String
  priority : Nat
  source : SourceSpec
  staleTimeout : Nat
deriving DecidableEq, Repr

/-- One `alarm_setpoints` row of a loaded configuration. -/
structure SetpointRow where
  parameterName : String
  setpoint : AlarmSetpoint
deriving DecidableEq, Repr

/-- A candidate configuration as submitted to the loader. -/
structure RawConfig where
  registers : List RegisterRow
  chains : List ChainRow
  setpoints : List SetpointRow
deriving DecidableEq, Repr

/-- Dependencies contributed by one chain row (parameters referenced by its
calculated formula). -/
def rowDeps (r : ChainRow) : List String :=
  match r.source with
  | SourceSpec.calculated e => exprParams e
  | _ => []

/-- All parameters the formulas of parameter `p` depend on. -/
def configDeps (cfg : RawConfig) (p : String) : List String :=
  ((cfg.chains.filter (fun r => decide (r.parameterName = p))).map rowDeps).flatten

/-- The distinct parameter names of the configuration's chains. -/
def configNodes (cfg : RawConfig) : List String :=
  (cfg.chains.map (fun r => r.parameterName)).dedup

/-- One round of topological elimination: keep exactly the parameters that
still depend on a remaining parameter. -/
def elimStep (depf : String → List String) (rem : List String) : List String :=
  rem.filter (fun p => (depf p).any (fun q => rem.contains q))

/-- Iterated elimination. -/
def elimIter (depf : String → List String) : Nat → List String → List String
  | 0, rem => rem
  | n + 1, rem => elimIter depf n (elimStep depf rem)

/-- Modelled from the spec: cycle detection at configuration-load time via
topological ordering of calculated parameters (spec §4.2, §9): the
configuration is acyclic iff iterated elimination empties the node set. -/
def acyclicCheck (cfg : RawConfig) : Bool :=
  (elimIter (configDeps cfg) (configNodes cfg).length (configNodes cfg)).isEmpty

/-- Modelled from the spec: full configuration validation (spec §7):
recognized byte-order tags, no duplicate (parameter, priority) chain row, no
duplicate setpoint row per parameter, no dependency cycle. -/
def validateConfig (cfg : RawConfig) : Bool :=
  cfg.registers.all (fun r => validByteOrders.contains r.byteOrder) &&
  decide ((cfg.chains.map (fun r => (r.parameterName, r.priority))).Nodup) &&
  decide ((cfg.setpoints.map (fun r => r.parameterName)).Nodup) &&
  acyclicCheck cfg

/-- Modelled from the spec: atomic configuration load — an invalid new
configuration is rejected entirely and the prior valid configuration remains
active (spec §6, §7). -/
def loadConfig (old cfg : RawConfig) : RawConfig :=
  if validateConfig cfg then cfg else old

/-- A set of parameters each of which depends on another member of the set:
a dependency cycle support. -/
def hasDepCycle (cfg : RawConfig) : Prop :=
  ∃ S : List String, S ≠ [] ∧ (∀ p ∈ S, p ∈ configNodes cfg) ∧
    ∀ p ∈ S, ∃ q ∈ S, q ∈ configDeps cfg p

/-- The four register data types (`register_map.data_type` in part_000). -/
inductive DataType
  | UINT16
  | INT16
  | FLOAT32
  | BOOL
deriving DecidableEq, Repr

/-- Number of 16-bit words a data type occupies. -/
def wordCount : DataType → Nat
  | DataType.FLOAT32 => 2
  | _ => 1

/-- Swap the two bytes of a 16-bit word. -/
def swapBytes (w : Nat) : Nat := (w % 256) * 256 + w / 256

/-- Modelled from the spec: byte-order reassembly (spec §4.1): AB/BA reorder
the bytes of a single word; ABCD/DCBA/CDAB/BADC reorder two words and their
internal byte pairs into one 32-bit value; anything else is unrecognized. -/
def reassemble (bo : String) (ws : List Nat) : Option Nat :=
  match bo, ws with
  | "AB", [w] => some w
  | "BA", [w] => some (swapBytes w)
  | "ABCD", [w1, w2] => some (w1 * 65536 + w2)
  | "DCBA", [w1, w2] => some (swapBytes w2 * 65536 + swapBytes w1)
  | "CDAB", [w1, w2] => some (w2 * 65536 + w1)
  | "BADC", [w1, w2] => some (swapBytes w1 * 65536 + swapBytes w2)
  | _, _ => none

/-- Bit `k` of a word. -/
def bit (k w : Nat) : Nat := w / 2 ^ k % 2

/-- Exact value of an IEEE-754 single-precision bit pattern (sign, biased
exponent, mantissa); Inf/NaN patterns (exponent 255) carry no numeric
value. -/
def float32ToRat (raw : Nat) : Option ℚ :=
  let s : Nat := raw / 2 ^ 31 % 2
  let e : Nat := raw / 2 ^ 23 % 256
  let m : Nat := raw % 2 ^ 23
  if e = 255 then none
  else
    let mag : ℚ :=
      if e = 0 then (m : ℚ) / 2 ^ 23 * (2 : ℚ) ^ (-(126 : ℤ))
      else (1 + (m : ℚ) / 2 ^ 23) * (2 : ℚ) ^ ((e : ℤ) - 127)
    some (if s = 1 then -mag else mag)

/-- Modelled from the spec: type reinterpretation (spec §4.1): UINT16 as-is,
INT16 two's-complement, FLOAT32 IEEE-754, BOOL by bit extraction or
nonzero-is-true. -/
def reinterpret (dt : DataType) (bitPos : Option Nat) (raw : Nat) : Option ℚ :=
  match dt with
  | DataType.UINT16 => some (raw : ℚ)
  | DataType.INT16 => some (if raw < 32768 then (raw : ℚ) else (raw : ℚ) - 65536)
  | DataType.FLOAT32 => float32ToRat raw
  | DataType.BOOL =>
    match bitPos with
    | some k => some (bit k raw : ℚ)
    | none => some (if raw = 0 then 0 else 1)

/-- A register definition as the decoder sees it (spec §3,
RegisterDefinition). -/
structure RegisterDef where
  dataType : DataType
  byteOrder : String
  bitPosition : Option Nat
  scaleFactor : ℚ
  offset : ℚ
  minValid : Option ℚ
  maxValid : Option ℚ
deriving DecidableEq, Repr

/-- Range validation of the scaled value (spec §4.1). -/
def inRange (d : RegisterDef) (v : ℚ) : Bool :=
  (match d.minValid with
   | some lo => decide (lo ≤ v)
   | none => true) &&
  (match d.maxValid with
   | some hi => decide (v ≤ hi)
   | none => true)

/-- Modelled from the spec: full numeric decode (spec §4.1): byte-order
reassembly, then type reinterpretation, then `value*scale_factor + offset`,
then range check (out of range decodes as a failed read). -/
def decode (d : RegisterDef) (ws : List Nat) : Option ℚ :=
  match reassemble d.byteOrder ws with
  | none => none
  | some raw =>
    match reinterpret d.dataType d.bitPosition raw with
    | none => none
    | some x =>
      let v := x * d.scaleFactor + d.offset
      if inRange d v then some v else none

/-- The encoder side of the round trip: produce the raw word block whose
reassembly under the byte order yields the given raw integer representation;
defined exactly for the byte orders valid for the type's width. -/
def splitWords (dt : DataType) (bo : String) (raw : Nat) : Option (List Nat) :=
  if wordCount dt = 1 then
    match bo with
    | "AB" => some [raw]
    | "BA" => some [swapBytes raw]
    | _ => none
  else
    match bo with
    | "ABCD" => some [raw / 65536, raw % 65536]
    | "DCBA" => some [swapBytes (raw % 65536), swapBytes (raw / 65536)]
    | "CDAB" => some [raw % 65536, raw / 65536]
    | "BADC" => some [swapBytes (raw / 65536), swapBytes (raw % 65536)]
    | _ => none

/-- A concrete resolve context: register 7 last decoded to 10 at t = 0, no
manual entries, empty snapshot. -/
def ctxW : ResolveCtx :=
  ⟨fun r => if r = 7 then some (10, 0) else none, fun _ => none, fun _ => none⟩

/-- A concrete two-candidate chain: Modbus register 7 at priority 1, default
constant 42 at priority 2. -/
def candW1 : SourceCandidate := ⟨1, 30, SourceSpec.modbus 7⟩

/-- The default-constant candidate of the concrete chain. -/
def candW2 : SourceCandidate := ⟨2, 0, SourceSpec.defaultConst 42⟩

/-- The concrete chain [Modbus, Default]. -/
def chainW : List SourceCandidate := [candW1, candW2]

/-- An empty (trivially valid) configuration. -/
def cfgEmpty : RawConfig := ⟨[], [], []⟩

/-- A configuration with an unrecognized byte-order tag "XY". -/
def cfgBad : RawConfig := ⟨[⟨"reg", 1, "UINT16", "XY"⟩], [], []⟩

/-- C9: acknowledgeAlarm sets status to Ack on exactly the alarms whose id
equals the given id, leaving every other alarm, and every other field of the
acknowledged alarms, unchanged. -/
theorem acknowledgeAlarm_frame (id : String) (alarms : List AlarmEventUI) :
    (acknowledgeAlarm id alarms).length = alarms.length ∧
    ∀ (i : Nat) (a : AlarmEventUI), alarms[i]? = some a →
      (a.id = id →
        (acknowledgeAlarm id alarms)[i]? = some { a with status := AckStatus.Ack }) ∧
      (a.id ≠ id → (acknowledgeAlarm id alarms)[i]? = some a) := by
  constructor
  · simp [acknowledgeAlarm]
  · intro i a ha
    constructor
    · intro hid
      simp [acknowledgeAlarm, List.getElem?_map, ha, hid]
    · intro hid
      simp [acknowledgeAlarm, List.getElem?_map, ha, hid]

/-- Witness for C9 at a concrete two-alarm list. -/
theorem acknowledgeAlarm_frame_witness :
    let a1 : AlarmEventUI :=
      ⟨"evt-001", "t1", 40001, "Suction Pressure", 142 / 10, 15, ViolationType.Low,
        Severity.Critical, AckStatus.Active⟩
    let a2 : AlarmEventUI :=
      ⟨"evt-002", "t2", 40005, "Oil Pressure", 855 / 10, 80, ViolationType.High,
        Severity.Warning, AckStatus.Active⟩
    (acknowledgeAlarm "evt-001" [a1, a2])[0]? = some { a1 with status := AckStatus.Ack } ∧
    (acknowledgeAlarm "evt-001" [a1, a2])[1]? = some a2 := by
  intro a1 a2
  refine ⟨?_, ?_⟩
  · exact ((acknowledgeAlarm_frame "evt-001" [a1, a2]).2 0 a1 rfl).1 rfl
  · exact ((acknowledgeAlarm_frame "evt-001" [a1, a2]).2 1 a2 rfl).2 (by decide)

/-- C10: calculateR updates the gas constant only when molecularWeight is
strictly positive (so the divisor is never zero); when molecularWeight ≤ 0 the
properties state is left unchanged. -/
theorem calculateR_guard (props : GasProperties) :
    (props.molecularWeight ≤ 0 → calculateR props = props) ∧
    (0 < props.molecularWeight →
      props.molecularWeight ≠ 0 ∧
      calculateR props =
        { props with gasConstantR := round3 (30907 / 20 / props.molecularWeight) }) := by
  constructor
  · intro h
    simp [calculateR, not_lt.mpr h]
  · intro h
    exact ⟨ne_of_gt h, by simp [calculateR, h]⟩

/-- Witness for C10 at concrete gas properties (default natural gas, and a
zero molecular weight). -/
theorem calculateR_guard_witness :
    let good : GasProperties := ⟨65 / 100, 1885 / 100, 128 / 100, 125 / 100,
      98 / 100, 95 / 100, 0⟩
    let bad : GasProperties := ⟨65 / 100, 0, 128 / 100, 125 / 100, 98 / 100,
      95 / 100, 0⟩
    calculateR bad = bad ∧
    calculateR good =
      { good with gasConstantR := round3 (30907 / 20 / (1885 / 100)) } := by
  intro good bad
  refine ⟨(calculateR_guard bad).1 (by norm_num), ?_⟩
  exact ((calculateR_guard good).2 (by norm_num)).2

/-- The shutdown flag after a step is the old flag, or-ed with the trigger
"a confirmed transition to a non-NORMAL level of an isShutdown setpoint". -/
theorem stepEval_shutdown_eq (param : String) (sp : AlarmSetpoint) (t : Nat)
    (v : ℚ) (q : Quality) (s : EvalState) :
    ((stepEval param sp t v q s).1).shutdown =
      (s.shutdown ||
        (sp.isShutdown &&
          (stepEval param sp t v q s).2.any (fun e => decide (e.newLevel ≠ Level.NORMAL)))) := by
  unfold stepEval
  split
  · simp
  · split
    · simp
    · simp

/-- A single evaluator step never clears the shutdown flag. -/
theorem stepEval_shutdown_mono (param : String) (sp : AlarmSetpoint) (t : Nat)
    (v : ℚ) (q : Quality) (s : EvalState) (h : s.shutdown = true) :
    ((stepEval param sp t v q s).1).shutdown = true := by
  rw [stepEval_shutdown_eq, h, Bool.true_or]

/-- No evaluator trace ever clears the shutdown flag. -/
theorem runEval_shutdown_mono (param : String) (sp : AlarmSetpoint) :
    ∀ (ins : List (Nat × ℚ × Quality)) (s : EvalState), s.shutdown = true →
      ((runEval param sp s ins).1).shutdown = true := by
  intro ins
  induction ins with
  | nil => intro s h; exact h
  | cons p rest ih =>
    intro s h
    obtain ⟨t, v, q⟩ := p
    exact ih _ (stepEval_shutdown_mono param sp t v q s h)

/-- C1: once a shutdown-flagged setpoint's alarm level is confirmed (an event
with a non-NORMAL new level is emitted), the process-wide shutdown flag is set
at that instant, and it remains true across every subsequent evaluator trace
(in particular after the parameter returns to NORMAL); only the external
reset action clears it — the evaluator itself never does. -/
theorem alarm_shutdown_latch (param : String) (sp : AlarmSetpoint) (t : Nat)
    (v : ℚ) (q : Quality) (s : EvalState)
    (hsd : sp.isShutdown = true)
    (hconf : ∃ e ∈ (stepEval param sp t v q s).2, e.newLevel ≠ Level.NORMAL) :
    (stepEval param sp t v q s).1.shutdown = true ∧
    (∀ ins, (runEval param sp (stepEval param sp t v q s).1 ins).1.shutdown = true) ∧
    ∀ s' : EvalState, (resetShutdown s').shutdown = false := by
  have hany : (stepEval param sp t v q s).2.any
      (fun e => decide (e.newLevel ≠ Level.NORMAL)) = true := by
    rw [List.any_eq_true]
    obtain ⟨e, he, hne⟩ := hconf
    exact ⟨e, he, by simpa using hne⟩
  have h1 : (stepEval param sp t v q s).1.shutdown = true := by
    rw [stepEval_shutdown_eq, hsd, hany]
    simp
  exact ⟨h1, fun ins => runEval_shutdown_mono param sp ins _ h1, fun _ => rfl⟩

/-- Witness for C1: the shutdown setpoint spW confirms H at `v = 101`, the
flag is set, and it is still set after a later cycle where the value is back
at 90 (NORMAL). -/
theorem alarm_shutdown_latch_witness :
    (stepEval "p" spW 0 101 Quality.LIVE initEvalState).1.shutdown = true ∧
    (runEval "p" spW (stepEval "p" spW 0 101 Quality.LIVE initEvalState).1
        [(1, 90, Quality.LIVE)]).1.shutdown = true := by
  have hstep : stepEval "p" spW 0 101 Quality.LIVE initEvalState =
      (⟨⟨1, 1, 0⟩, ⟨0, 0, 0⟩, true⟩, [⟨"p", Level.NORMAL, Level.H, 101, true, 0⟩]) := by
    simp [stepEval, stepWatcher, highTarget, lowTarget, optActive, highActive,
      lowActive, initEvalState, initWatcher, spW, highLevel]
    norm_num
    exact ⟨_, ⟨0, 1, ⟨rfl, rfl⟩, rfl⟩, by simp⟩
  have h := alarm_shutdown_latch "p" spW 0 101 Quality.LIVE initEvalState rfl
    ⟨⟨"p", Level.NORMAL, Level.H, 101, true, 0⟩, by rw [hstep]; simp, by simp⟩
  exact ⟨h.1, h.2.1 [(1, 90, Quality.LIVE)]⟩

/-- Evaluation of a cons trace, phrased through equations for the head step
and the tail run. -/
theorem runEval_cons_eq (param : String) (sp : AlarmSetpoint) (t : Nat) (v : ℚ)
    (q : Quality) (s : EvalState) (rest : List (Nat × ℚ × Quality))
    (S1 S2 : EvalState) (evs1 evs2 : List AlarmEvent)
    (hstep : stepEval param sp t v q s = (S1, evs1))
    (hrun : runEval param sp S1 rest = (S2, evs2)) :
    runEval param sp s ((t, v, q) :: rest) = (S2, evs1 ++ evs2) := by
  simp [runEval, hstep, hrun]

/-- C2: with H = 100, deadband = 5, delay = 0, the sequence 90, 101, 99, 96,
94 raises the alarm at 101, keeps it active at 99 and 96 (both above 95), and
clears it at 94; the deadband field of the setpoint configuration is ≥ 0. -/
theorem hysteresis_deadband :
    (0 : ℚ) ≤ sp2.deadband ∧
    reportedLevel (runEval "p" sp2 initEvalState (c2Trace.take 1)).1 = Level.NORMAL ∧
    reportedLevel (runEval "p" sp2 initEvalState (c2Trace.take 2)).1 = Level.H ∧
    reportedLevel (runEval "p" sp2 initEvalState (c2Trace.take 3)).1 = Level.H ∧
    reportedLevel (runEval "p" sp2 initEvalState (c2Trace.take 4)).1 = Level.H ∧
    reportedLevel (runEval "p" sp2 initEvalState c2Trace).1 = Level.NORMAL ∧
    (runEval "p" sp2 initEvalState c2Trace).2 =
      [⟨"p", Level.NORMAL, Level.H, 101, false, 1⟩,
       ⟨"p", Level.H, Level.NORMAL, 94, false, 4⟩] := by
  have h1 : stepEval "p" sp2 0 90 Quality.LIVE initEvalState =
      (⟨⟨0, 0, 0⟩, ⟨0, 0, 0⟩, false⟩, []) := by
    simp [stepEval, stepWatcher, highTarget, lowTarget, optActive, highActive,
      lowActive, initEvalState, initWatcher, sp2]
    norm_num
  have h2 : stepEval "p" sp2 1 101 Quality.LIVE ⟨⟨0, 0, 0⟩, ⟨0, 0, 0⟩, false⟩ =
      (⟨⟨1, 1, 1⟩, ⟨0, 0, 0⟩, false⟩, [⟨"p", Level.NORMAL, Level.H, 101, false, 1⟩]) := by
    simp [stepEval, stepWatcher, highTarget, lowTarget, optActive, highActive,
      lowActive, sp2, highLevel]
    norm_num
  have h3 : stepEval "p" sp2 2 99 Quality.LIVE ⟨⟨1, 1, 1⟩, ⟨0, 0, 0⟩, false⟩ =
      (⟨⟨1, 1, 1⟩, ⟨0, 0, 0⟩, false⟩, []) := by
    simp [stepEval, stepWatcher, highTarget, lowTarget, optActive, highActive,
      lowActive, sp2]
    norm_num
  have h4 : stepEval "p" sp2 3 96 Quality.LIVE ⟨⟨1, 1, 1⟩, ⟨0, 0, 0⟩, false⟩ =
      (⟨⟨1, 1, 1⟩, ⟨0, 0, 0⟩, false⟩, []) := by
    simp [stepEval, stepWatcher, highTarget, lowTarget, optActive, highActive,
      lowActive, sp2]
    norm_num
  have h5 : stepEval "p" sp2 4 94 Quality.LIVE ⟨⟨1, 1, 1⟩, ⟨0, 0, 0⟩, false⟩ =
      (⟨⟨0, 0, 4⟩, ⟨0, 0, 0⟩, false⟩, [⟨"p", Level.H, Level.NORMAL, 94, false, 4⟩]) := by
    simp [stepEval, stepWatcher, highTarget, lowTarget, optActive, highActive,
      lowActive, sp2, highLevel]
    norm_num
  have u5 : runEval "p" sp2 ⟨⟨1, 1, 1⟩, ⟨0, 0, 0⟩, false⟩ [(4, 94, Quality.LIVE)] =
      (⟨⟨0, 0, 4⟩, ⟨0, 0, 0⟩, false⟩, [⟨"p", Level.H, Level.NORMAL, 94, false, 4⟩]) := by
    simpa using runEval_cons_eq "p" sp2 4 94 Quality.LIVE _ [] _ _ _ _ h5 rfl
  have u4 : runEval "p" sp2 ⟨⟨1, 1, 1⟩, ⟨0, 0, 0⟩, false⟩ [(3, 96, Quality.LIVE)] =
      (⟨⟨1, 1, 1⟩, ⟨0, 0, 0⟩, false⟩, []) := by
    simpa using runEval_cons_eq "p" sp2 3 96 Quality.LIVE _ [] _ _ _ _ h4 rfl
  have u45 : runEval "p" sp2 ⟨⟨1, 1, 1⟩, ⟨0, 0, 0⟩, false⟩
      [(3, 96, Quality.LIVE), (4, 94, Quality.LIVE)] =
      (⟨⟨0, 0, 4⟩, ⟨0, 0, 0⟩, false⟩, [⟨"p", Level.H, Level.NORMAL, 94, false, 4⟩]) := by
    simpa using runEval_cons_eq "p" sp2 3 96 Quality.LIVE _ _ _ _ _ _ h4 u5
  have u3 : runEval "p" sp2 ⟨⟨1, 1, 1⟩, ⟨0, 0, 0⟩, false⟩ [(2, 99, Quality.LIVE)] =
      (⟨⟨1, 1, 1⟩, ⟨0, 0, 0⟩, false⟩, []) := by
    simpa using runEval_cons_eq "p" sp2 2 99 Quality.LIVE _ [] _ _ _ _ h3 rfl
  have u34 : runEval "p" sp2 ⟨⟨1, 1, 1⟩, ⟨0, 0, 0⟩, false⟩
      [(2, 99, Quality.LIVE), (3, 96, Quality.LIVE)] =
      (⟨⟨1, 1, 1⟩, ⟨0, 0, 0⟩, false⟩, []) := by
    simpa using runEval_cons_eq "p" sp2 2 99 Quality.LIVE _ _ _ _ _ _ h3 u4
  have u345 : runEval "p" sp2 ⟨⟨1, 1, 1⟩, ⟨0, 0, 0⟩, false⟩
      [(2, 99, Quality.LIVE), (3, 96, Quality.LIVE), (4, 94, Quality.LIVE)] =
      (⟨⟨0, 0, 4⟩, ⟨0, 0, 0⟩, false⟩, [⟨"p", Level.H, Level.NORMAL, 94, false, 4⟩]) := by
    simpa using runEval_cons_eq "p" sp2 2 99 Quality.LIVE _ _ _ _ _ _ h3 u45
  have v2 : runEval "p" sp2 ⟨⟨0, 0, 0⟩, ⟨0, 0, 0⟩, false⟩ [(1, 101, Quality.LIVE)] =
      (⟨⟨1, 1, 1⟩, ⟨0, 0, 0⟩, false⟩, [⟨"p", Level.NORMAL, Level.H, 101, false, 1⟩]) := by
    simpa using runEval_cons_eq "p" sp2 1 101 Quality.LIVE _ [] _ _ _ _ h2 rfl
  have v23 : runEval "p" sp2 ⟨⟨0, 0, 0⟩, ⟨0, 0, 0⟩, false⟩
      [(1, 101, Quality.LIVE), (2, 99, Quality.LIVE)] =
      (⟨⟨1, 1, 1⟩, ⟨0, 0, 0⟩, false⟩, [⟨"p", Level.NORMAL, Level.H, 101, false, 1⟩]) := by
    simpa using runEval_cons_eq "p" sp2 1 101 Quality.LIVE _ _ _ _ _ _ h2 u3
  have v234 : runEval "p" sp2 ⟨⟨0, 0, 0⟩, ⟨0, 0, 0⟩, false⟩
      [(1, 101, Quality.LIVE), (2, 99, Quality.LIVE), (3, 96, Quality.LIVE)] =
      (⟨⟨1, 1, 1⟩, ⟨0, 0, 0⟩, false⟩, [⟨"p", Level.NORMAL, Level.H, 101, false, 1⟩]) := by
    simpa using runEval_cons_eq "p" sp2 1 101 Quality.LIVE _ _ _ _ _ _ h2 u34
  have v2345 : runEval "p" sp2 ⟨⟨0, 0, 0⟩, ⟨0, 0, 0⟩, false⟩
      [(1, 101, Quality.LIVE), (2, 99, Quality.LIVE), (3, 96, Quality.LIVE),
       (4, 94, Quality.LIVE)] =
      (⟨⟨0, 0, 4⟩, ⟨0, 0, 0⟩, false⟩,
       [⟨"p", Level.NORMAL, Level.H, 101, false, 1⟩,
        ⟨"p", Level.H, Level.NORMAL, 94, false, 4⟩]) := by
    simpa using runEval_cons_eq "p" sp2 1 101 Quality.LIVE _ _ _ _ _ _ h2 u345
  have q1 : runEval "p" sp2 initEvalState (c2Trace.take 1) =
      (⟨⟨0, 0, 0⟩, ⟨0, 0, 0⟩, false⟩, []) := by
    simpa [c2Trace] using runEval_cons_eq "p" sp2 0 90 Quality.LIVE
      initEvalState [] _ _ _ _ h1 rfl
  have q2 : runEval "p" sp2 initEvalState (c2Trace.take 2) =
      (⟨⟨1, 1, 1⟩, ⟨0, 0, 0⟩, false⟩, [⟨"p", Level.NORMAL, Level.H, 101, false, 1⟩]) := by
    simpa [c2Trace] using runEval_cons_eq "p" sp2 0 90 Quality.LIVE
      initEvalState _ _ _ _ _ h1 v2
  have q3 : runEval "p" sp2 initEvalState (c2Trace.take 3) =
      (⟨⟨1, 1, 1⟩, ⟨0, 0, 0⟩, false⟩, [⟨"p", Level.NORMAL, Level.H, 101, false, 1⟩]) := by
    simpa [c2Trace] using runEval_cons_eq "p" sp2 0 90 Quality.LIVE
      initEvalState _ _ _ _ _ h1 v23
  have q4 : runEval "p" sp2 initEvalState (c2Trace.take 4) =
      (⟨⟨1, 1, 1⟩, ⟨0, 0, 0⟩, false⟩, [⟨"p", Level.NORMAL, Level.H, 101, false, 1⟩]) := by
    simpa [c2Trace] using runEval_cons_eq "p" sp2 0 90 Quality.LIVE
      initEvalState _ _ _ _ _ h1 v234
  have q5 : runEval "p" sp2 initEvalState c2Trace =
      (⟨⟨0, 0, 4⟩, ⟨0, 0, 0⟩, false⟩,
       [⟨"p", Level.NORMAL, Level.H, 101, false, 1⟩,
        ⟨"p", Level.H, Level.NORMAL, 94, false, 4⟩]) := by
    simpa [c2Trace] using runEval_cons_eq "p" sp2 0 90 Quality.LIVE
      initEvalState _ _ _ _ _ h1 v2345
  refine ⟨by norm_num [sp2], ?_, ?_, ?_, ?_, ?_, ?_⟩
  · simp [q1, reportedLevel]
  · simp [q2, reportedLevel]
  · simp [q3, reportedLevel]
  · simp [q4, reportedLevel]
  · simp [q5, reportedLevel]
  · simp [q5]

/-- Evaluation distributes over trace concatenation. -/
theorem runEval_append (param : String) (sp : AlarmSetpoint) :
    ∀ (l1 l2 : List (Nat × ℚ × Quality)) (s : EvalState),
      runEval param sp s (l1 ++ l2) =
        ((runEval param sp (runEval param sp s l1).1 l2).1,
         (runEval param sp s l1).2 ++ (runEval param sp (runEval param sp s l1).1 l2).2) := by
  intro l1
  induction l1 with
  | nil => intro l2 s; simp [runEval]
  | cons p rest ih =>
    intro l2 s
    obtain ⟨t, v, q⟩ := p
    simp [runEval, ih, List.append_assoc]

/-- A value above the raise threshold, seen from a synced NORMAL state, makes
H candidate (pending since now) without confirming before the delay. -/
theorem spDelay_step_candidate (param : String) (thr d hi : ℚ) (sdf : Bool)
    (x y : Nat) (sd : Bool) (t : Nat) (hhi : thr < hi) :
    stepEval param (spDelay thr d sdf) t hi Quality.LIVE ⟨⟨0, 0, x⟩, ⟨0, 0, y⟩, sd⟩ =
      (⟨⟨0, 1, t⟩, ⟨0, 0, y⟩, sd⟩, []) := by
  simp [stepEval, stepWatcher, highTarget, lowTarget, optActive, highActive,
    spDelay, hhi]

/-- While the candidate holds and the delay has not elapsed, the pending
candidate is kept and nothing is confirmed. -/
theorem spDelay_step_pending (param : String) (thr d hi : ℚ) (sdf : Bool)
    (c y : Nat) (sd : Bool) (t : Nat) (hhi : thr < hi) (ht : t - c < 10) :
    stepEval param (spDelay thr d sdf) t hi Quality.LIVE ⟨⟨0, 1, c⟩, ⟨0, 0, y⟩, sd⟩ =
      (⟨⟨0, 1, c⟩, ⟨0, 0, y⟩, sd⟩, []) := by
  have hn : ¬ 10 ≤ t - c := by omega
  simp [stepEval, stepWatcher, highTarget, lowTarget, optActive, highActive,
    spDelay, hhi, hn]

/-- Once continuously candidate for the full 10-second delay, the H level is
confirmed and exactly one event is emitted. -/
theorem spDelay_step_confirm (param : String) (thr d hi : ℚ) (sdf : Bool)
    (c y : Nat) (sd : Bool) (t : Nat) (hhi : thr < hi) (ht : 10 ≤ t - c) :
    stepEval param (spDelay thr d sdf) t hi Quality.LIVE ⟨⟨0, 1, c⟩, ⟨0, 0, y⟩, sd⟩ =
      (⟨⟨1, 1, c⟩, ⟨0, 0, y⟩, sd || sdf⟩, [⟨param, Level.NORMAL, Level.H, hi, sdf, t⟩]) := by
  simp [stepEval, stepWatcher, highTarget, lowTarget, optActive, highActive,
    spDelay, hhi, ht, highLevel]

/-- A value not above the threshold, with no level confirmed, discards any
pending candidate and confirms nothing. -/
theorem spDelay_step_low (param : String) (thr d lo : ℚ) (sdf : Bool)
    (m c y : Nat) (sd : Bool) (t : Nat) (hlo : ¬ thr < lo) :
    stepEval param (spDelay thr d sdf) t lo Quality.LIVE ⟨⟨0, m, c⟩, ⟨0, 0, y⟩, sd⟩ =
      (⟨⟨0, 0, if 0 = m then c else t⟩, ⟨0, 0, y⟩, sd⟩, []) := by
  simp [stepEval, stepWatcher, highTarget, lowTarget, optActive, highActive,
    spDelay, hlo]

/-- From a synced NORMAL state, below-threshold inputs leave the state
unchanged and never produce events. -/
theorem spDelay_run_low (param : String) (thr d lo : ℚ) (sdf : Bool)
    (hlo : ¬ thr < lo) :
    ∀ (ts : List Nat) (x y : Nat) (sd : Bool),
      runEval param (spDelay thr d sdf) ⟨⟨0, 0, x⟩, ⟨0, 0, y⟩, sd⟩
        (ts.map (fun t => (t, lo, Quality.LIVE))) =
        (⟨⟨0, 0, x⟩, ⟨0, 0, y⟩, sd⟩, []) := by
  intro ts
  induction ts with
  | nil => intro x y sd; simp [runEval]
  | cons t rest ih =>
    intro x y sd
    have hstep := spDelay_step_low param thr d lo sdf 0 x y sd t hlo
    simp only [if_pos rfl] at hstep
    simpa using runEval_cons_eq param (spDelay thr d sdf) t lo Quality.LIVE
      _ _ _ _ _ _ hstep (ih x y sd)

/-- While above threshold inside the delay window, the pending candidate is
retained across the whole sub-trace and nothing is emitted. -/
theorem spDelay_run_pending (param : String) (thr d hi : ℚ) (sdf : Bool)
    (hhi : thr < hi) :
    ∀ (k t0 y : Nat) (sd : Bool), t0 + k ≤ 10 →
      runEval param (spDelay thr d sdf) ⟨⟨0, 1, 0⟩, ⟨0, 0, y⟩, sd⟩
        ((List.range' t0 k).map (fun t => (t, hi, Quality.LIVE))) =
        (⟨⟨0, 1, 0⟩, ⟨0, 0, y⟩, sd⟩, []) := by
  intro k
  induction k with
  | zero => intro t0 y sd _; simp [runEval]
  | succ n ih =>
    intro t0 y sd h
    rw [List.range'_succ, List.map_cons]
    simpa using runEval_cons_eq param (spDelay thr d sdf) t0 hi Quality.LIVE
      _ _ _ _ _ _
      (spDelay_step_pending param thr d hi sdf 0 y sd t0 hhi (by omega))
      (ih (t0 + 1) y sd (by omega))

/-- C3: with delay_seconds = 10, an excursion above threshold lasting 5
seconds then receding never confirms an alarm (for any continuation of
below-threshold samples); an excursion lasting 11 seconds confirms exactly
once, at the 10-second mark; and a candidate change always resets the delay
timer to the current time. -/
theorem delay_debounce (param : String) (thr d hi lo : ℚ) (sdf : Bool)
    (hhi : thr < hi) (hlo : ¬ thr < lo) :
    (∀ ts : List Nat,
      (runEval param (spDelay thr d sdf) initEvalState
        ((List.range' 0 5).map (fun t => (t, hi, Quality.LIVE)) ++
         ts.map (fun t => (t, lo, Quality.LIVE)))).2 = []) ∧
    (runEval param (spDelay thr d sdf) initEvalState
        ((List.range' 0 11).map (fun t => (t, hi, Quality.LIVE)))).2 =
      [⟨param, Level.NORMAL, Level.H, hi, sdf, 10⟩] ∧
    ∀ (ws : WatcherState) (delay t : Nat) (v : ℚ) (target : Nat → ℚ → Nat),
      target ws.confirmed v ≠ ws.candidate →
      ((stepWatcher delay target t v ws).1).candSince = t := by
  have hpre5 : runEval param (spDelay thr d sdf) initEvalState
      ((List.range' 0 5).map (fun t => (t, hi, Quality.LIVE))) =
      (⟨⟨0, 1, 0⟩, ⟨0, 0, 0⟩, false⟩, []) := by
    rw [show List.range' 0 5 = 0 :: List.range' 1 4 from rfl, List.map_cons]
    simpa using runEval_cons_eq param (spDelay thr d sdf) 0 hi Quality.LIVE
      initEvalState _ _ _ _ _
      (spDelay_step_candidate param thr d hi sdf 0 0 false 0 hhi)
      (spDelay_run_pending param thr d hi sdf hhi 4 1 0 false (by omega))
  have hpre10 : runEval param (spDelay thr d sdf) initEvalState
      ((List.range' 0 10).map (fun t => (t, hi, Quality.LIVE))) =
      (⟨⟨0, 1, 0⟩, ⟨0, 0, 0⟩, false⟩, []) := by
    rw [show List.range' 0 10 = 0 :: List.range' 1 9 from rfl, List.map_cons]
    simpa using runEval_cons_eq param (spDelay thr d sdf) 0 hi Quality.LIVE
      initEvalState _ _ _ _ _
      (spDelay_step_candidate param thr d hi sdf 0 0 false 0 hhi)
      (spDelay_run_pending param thr d hi sdf hhi 9 1 0 false (by omega))
  refine ⟨?_, ?_, ?_⟩
  · intro ts
    simp only [runEval_append, hpre5, List.nil_append]
    cases ts with
    | nil => simp [runEval]
    | cons t rest =>
      have hstep := spDelay_step_low param thr d lo sdf 1 0 0 false t hlo
      simp only [show ¬ (0 = 1) from by omega, if_neg, ite_false] at hstep
      have htail := runEval_cons_eq param (spDelay thr d sdf) t lo Quality.LIVE
        _ _ _ _ _ _ hstep (spDelay_run_low param thr d lo sdf hlo rest t 0 false)
      simp only [List.map_cons, htail]
      simp
  · rw [show List.range' 0 11 = List.range' 0 10 ++ [10] from rfl, List.map_append]
    simp only [runEval_append, hpre10, List.nil_append]
    have hconfirm := runEval_cons_eq param (spDelay thr d sdf) 10 hi Quality.LIVE
      _ _ _ _ _ _
      (spDelay_step_confirm param thr d hi sdf 0 0 false 10 hhi (by omega))
      (show runEval param (spDelay thr d sdf) ⟨⟨1, 1, 0⟩, ⟨0, 0, 0⟩, false || sdf⟩ [] =
        (⟨⟨1, 1, 0⟩, ⟨0, 0, 0⟩, false || sdf⟩, []) from rfl)
    simp only [List.map_cons, List.map_nil, hconfirm]
    simp
  · intro ws delay t v target hne
    unfold stepWatcher
    simp only [if_neg hne]
    split <;> simp [if_neg (Ne.symm hne)]

/-- Witness for C3 at threshold 100, spike value 101, receded value 90: the
11-second spike confirms exactly one H event at t = 10, and a 5-second spike
followed by receding samples at t = 5..7 yields no events. -/
theorem delay_debounce_witness :
    (runEval "p" (spDelay 100 0 false) initEvalState
        ((List.range' 0 11).map (fun t => (t, (101 : ℚ), Quality.LIVE)))).2 =
      [⟨"p", Level.NORMAL, Level.H, 101, false, 10⟩] ∧
    (runEval "p" (spDelay 100 0 false) initEvalState
        ((List.range' 0 5).map (fun t => (t, (101 : ℚ), Quality.LIVE)) ++
         [5, 6, 7].map (fun t => (t, (90 : ℚ), Quality.LIVE)))).2 = [] := by
  have h := delay_debounce "p" 100 0 101 90 false (by norm_num) (by norm_num)
  exact ⟨h.2.1, h.1 [5, 6, 7]⟩

/-- Walking a priority-sorted chain never selects past a fresh candidate: the
selection's priority is at most that of any fresh member. -/
theorem resolveFrom_le_of_fresh (parameter : String) (now : Nat) (ctx : ResolveCtx) :
    ∀ (chain : List SourceCandidate) (c : SourceCandidate),
      chain.Pairwise (fun a b => a.priority < b.priority) →
      c ∈ chain → (candValue parameter now ctx c).isSome →
      ∃ v q p, resolveFrom parameter now ctx chain = some (v, q, p) ∧ p ≤ c.priority := by
  intro chain
  induction chain with
  | nil => intro c _ hc _; exact absurd hc (List.not_mem_nil c)
  | cons c0 rest ih =>
    intro c hpw hc hfresh
    rw [List.pairwise_cons] at hpw
    obtain ⟨hlt, hpw'⟩ := hpw
    cases hv : candValue parameter now ctx c0 with
    | some vq =>
      refine ⟨vq.1, vq.2, c0.priority, by simp [resolveFrom, hv], ?_⟩
      rcases List.mem_cons.mp hc with h | h
      · subst h; exact le_refl _
      · exact le_of_lt (hlt c h)
    | none =>
      rcases List.mem_cons.mp hc with h | h
      · subst h; rw [hv] at hfresh; simp at hfresh
      · obtain ⟨v, q, p, hres, hle⟩ := ih c hpw' h hfresh
        exact ⟨v, q, p, by simp [resolveFrom, hv, hres], hle⟩

/-- C4: if the candidate at priority k is present and fresh, the resolver's
output originates from a priority ≤ k; and the first present-and-fresh
candidate in chain order wins outright, regardless of what follows. -/
theorem priority_monotone (parameter : String) (now : Nat) (ctx : ResolveCtx)
    (lkg : ℚ) (chain : List SourceCandidate) (c : SourceCandidate)
    (hsort : chain.Pairwise (fun a b => a.priority < b.priority))
    (hmem : c ∈ chain) (hfresh : (candValue parameter now ctx c).isSome) :
    (∃ p, (resolve parameter now ctx lkg chain).sourcePriority = some p ∧
      p ≤ c.priority) ∧
    ∀ (pre post : List SourceCandidate) (b : SourceCandidate) (v : ℚ) (q : Quality),
      (∀ a ∈ pre, candValue parameter now ctx a = none) →
      candValue parameter now ctx b = some (v, q) →
      resolve parameter now ctx lkg (pre ++ b :: post) =
        ⟨parameter, v, q, now, some b.priority, false⟩ := by
  constructor
  · obtain ⟨v, q, p, hres, hle⟩ :=
      resolveFrom_le_of_fresh parameter now ctx chain c hsort hmem hfresh
    exact ⟨p, by simp [resolve, hres], hle⟩
  · intro pre post b v q hpre hb
    have hres : ∀ (pr : List SourceCandidate),
        (∀ a ∈ pr, candValue parameter now ctx a = none) →
        resolveFrom parameter now ctx (pr ++ b :: post) = some (v, q, b.priority) := by
      intro pr
      induction pr with
      | nil => intro _; simp [resolveFrom, hb]
      | cons a rest ih =>
        intro hpr
        have ha := hpr a (by simp)
        simp only [List.cons_append, resolveFrom, ha]
        exact ih (fun x hx => hpr x (by simp [hx]))
    simp [resolve, hres pre hpre]

/-- Witness for C4 on the concrete chain [Modbus(fresh), Default]: the
resolution originates from priority 1 and equals the live Modbus value. -/
theorem priority_monotone_witness :
    (∃ p, (resolve "pp" 0 ctxW 0 chainW).sourcePriority = some p ∧ p ≤ 1) ∧
    resolve "pp" 0 ctxW 0 chainW = ⟨"pp", 10, Quality.LIVE, 0, some 1, false⟩ := by
  have h := priority_monotone "pp" 0 ctxW 0 chainW candW1
    (by simp [chainW, candW1, candW2, List.pairwise_cons])
    (by simp [chainW]) (by simp [candValue, ctxW, candW1])
  refine ⟨h.1, ?_⟩
  have h2 := h.2 [] [candW2] candW1 10 Quality.LIVE (by simp)
    (by simp [candValue, ctxW, candW1])
  simpa [chainW, candW1] using h2

/-- C5: when no candidate qualifies the parameter resolves to quality BAD
with the last-known-good numeric value retained and the staleness flag set;
and the last-known-good cache entry changes only on non-BAD resolutions. -/
theorem resolver_bad_lkg (parameter : String) (now : Nat) (ctx : ResolveCtx)
    (lkg : ℚ) (chain : List SourceCandidate)
    (hnone : resolveFrom parameter now ctx chain = none) :
    ((resolve parameter now ctx lkg chain).quality = Quality.BAD ∧
     (resolve parameter now ctx lkg chain).value = lkg ∧
     (resolve parameter now ctx lkg chain).stale = true) ∧
    (∀ rv : ResolvedValue, rv.quality = Quality.BAD → updateLKG lkg rv = lkg) ∧
    (∀ rv : ResolvedValue, rv.quality ≠ Quality.BAD → updateLKG lkg rv = rv.value) := by
  refine ⟨by simp [resolve, hnone], ?_, ?_⟩
  · intro rv h; simp [updateLKG, h]
  · intro rv h; simp [updateLKG, h]

/-- Witness for C5 on the empty chain with cached value 5. -/
theorem resolver_bad_lkg_witness :
    (resolve "pp" 0 ctxW 5 []).quality = Quality.BAD ∧
    (resolve "pp" 0 ctxW 5 []).value = 5 ∧
    updateLKG 5 (resolve "pp" 0 ctxW 5 []) = 5 := by
  have h := resolver_bad_lkg "pp" 0 ctxW 5 [] rfl
  exact ⟨h.1.1, h.1.2.1, h.2.1 _ h.1.1⟩

/-- C6: every resolved value's quality tag lies in the five-element set
{LIVE, CALCULATED, MANUAL, DEFAULT, BAD}, and an orchestrator tick only
appends a new snapshot — every already-published snapshot is unchanged. -/
theorem snapshot_quality_immutable (chains : List (String × List SourceCandidate))
    (now : Nat) (ctx : ResolveCtx) (s : CycleState) :
    (∀ rv : ResolvedValue,
      rv.quality = Quality.LIVE ∨ rv.quality = Quality.CALCULATED ∨
      rv.quality = Quality.MANUAL ∨ rv.quality = Quality.DEFAULT ∨
      rv.quality = Quality.BAD) ∧
    (cycleStep chains now ctx s).published.take s.published.length = s.published := by
  constructor
  · intro rv
    cases hq : rv.quality <;> simp [hq]
  · simp [cycleStep, List.take_left]

/-- A parameter set whose members all depend on a member survives one
elimination round. -/
theorem elimStep_keeps (depf : String → List String) (S rem : List String)
    (hS : ∀ p ∈ S, ∃ q ∈ S, q ∈ depf p) (hsub : ∀ p ∈ S, p ∈ rem) :
    ∀ p ∈ S, p ∈ elimStep depf rem := by
  intro p hp
  unfold elimStep
  rw [List.mem_filter]
  refine ⟨hsub p hp, ?_⟩
  rw [List.any_eq_true]
  obtain ⟨q, hqS, hqdep⟩ := hS p hp
  exact ⟨q, hqdep, by simpa using hsub q hqS⟩

/-- A cycle support survives any number of elimination rounds. -/
theorem elimIter_keeps (depf : String → List String) (S : List String)
    (hS : ∀ p ∈ S, ∃ q ∈ S, q ∈ depf p) :
    ∀ (n : Nat) (rem : List String), (∀ p ∈ S, p ∈ rem) →
      ∀ p ∈ S, p ∈ elimIter depf n rem := by
  intro n
  induction n with
  | zero => intro rem hsub p hp; simpa [elimIter] using hsub p hp
  | succ k ih =>
    intro rem hsub p hp
    show p ∈ elimIter depf k (elimStep depf rem)
    exact ih (elimStep depf rem) (elimStep_keeps depf S rem hS hsub) p hp

/-- C7: a configuration load containing an unrecognized byte-order tag, a
duplicate (parameter, priority) chain row, a duplicate setpoint row, or a
dependency cycle among calculated formulas fails entirely: the previously
valid configuration remains active unchanged. -/
theorem config_load_atomic (old cfg : RawConfig)
    (herr : (∃ r ∈ cfg.registers, validByteOrders.contains r.byteOrder = false) ∨
            ¬ (cfg.chains.map (fun r => (r.parameterName, r.priority))).Nodup ∨
            ¬ (cfg.setpoints.map (fun r => r.parameterName)).Nodup ∨
            hasDepCycle cfg) :
    loadConfig old cfg = old := by
  have hval : validateConfig cfg = false := by
    rcases herr with ⟨r, hr, hbo⟩ | hdup | hdup | hcyc
    · have hall : cfg.registers.all
          (fun r => validByteOrders.contains r.byteOrder) = false := by
        rw [List.all_eq_false]
        exact ⟨r, hr, by simpa using hbo⟩
      unfold validateConfig
      rw [hall]
      simp
    · unfold validateConfig
      rw [decide_eq_false hdup]
      simp
    · unfold validateConfig
      rw [decide_eq_false hdup]
      simp
    · obtain ⟨S, hne, hsubn, hS⟩ := hcyc
      obtain ⟨p, hp⟩ := List.exists_mem_of_ne_nil S hne
      have hkeep := elimIter_keeps (configDeps cfg) S hS
        (configNodes cfg).length (configNodes cfg) hsubn p hp
      have hacy : acyclicCheck cfg = false := by
        unfold acyclicCheck
        simpa using List.ne_nil_of_mem hkeep
      unfold validateConfig
      rw [hacy]
      simp
  simp [loadConfig, hval]

/-- Witness for C7: the configuration with byte-order tag "XY" is rejected
and the empty prior configuration stays active. -/
theorem config_load_atomic_witness :
    loadConfig cfgEmpty cfgBad = cfgEmpty ∧ cfgBad ≠ cfgEmpty := by
  refine ⟨config_load_atomic cfgEmpty cfgBad
    (Or.inl ⟨⟨"reg", 1, "UINT16", "XY"⟩, by simp [cfgBad], rfl⟩), ?_⟩
  simp [cfgBad, cfgEmpty]

/-- A data type occupies one or two words. -/
theorem wordCount_eq_two (dt : DataType) (h : ¬ wordCount dt = 1) :
    wordCount dt = 2 := by
  cases dt <;> simp [wordCount] at h ⊢

/-- Byte-order reassembly inverts word splitting for every recognized
(data type, byte order) pair. -/
theorem reassemble_splitWords (dt : DataType) (bo : String) (raw : Nat)
    (ws : List Nat) (hraw : raw < 2 ^ (16 * wordCount dt))
    (hsplit : splitWords dt bo raw = some ws) :
    reassemble bo ws = some raw := by
  unfold splitWords at hsplit
  by_cases h1 : wordCount dt = 1
  · rw [if_pos h1] at hsplit
    rw [h1] at hraw
    have hraw' : raw < 65536 := by norm_num at hraw; exact hraw
    split at hsplit
    · injection hsplit with h; subst h
      simp [reassemble]
    · injection hsplit with h; subst h
      simp only [reassemble, swapBytes, Option.some.injEq]
      omega
    · exact absurd hsplit (by simp)
  · rw [if_neg h1] at hsplit
    rw [wordCount_eq_two dt h1] at hraw
    have hraw' : raw < 4294967296 := by norm_num at hraw; exact hraw
    split at hsplit
    · injection hsplit with h; subst h
      simp only [reassemble, Option.some.injEq]
      omega
    · injection hsplit with h; subst h
      simp only [reassemble, swapBytes, Option.some.injEq]
      omega
    · injection hsplit with h; subst h
      simp only [reassemble, Option.some.injEq]
      omega
    · injection hsplit with h; subst h
      simp only [reassemble, swapBytes, Option.some.injEq]
      omega
    · exact absurd hsplit (by simp)

/-- C8: for every data type, every byte order valid for it, and every
representable value (the reinterpretation `u` of an in-width raw pattern,
scaled to `u*scale_factor + offset`), decoding the word block produced by
encoding that representation returns the value exactly. -/
theorem decode_roundtrip (d : RegisterDef) (raw : Nat) (ws : List Nat) (u : ℚ)
    (hraw : raw < 2 ^ (16 * wordCount d.dataType))
    (hsplit : splitWords d.dataType d.byteOrder raw = some ws)
    (hre : reinterpret d.dataType d.bitPosition raw = some u)
    (hrange : inRange d (u * d.scaleFactor + d.offset) = true) :
    decode d ws = some (u * d.scaleFactor + d.offset) := by
  unfold decode
  rw [reassemble_splitWords d.dataType d.byteOrder raw ws hraw hsplit]
  simp [hre, hrange]

/-- Witness for C8: FLOAT32 value 1.0 (bits 0x3F800000) under byte order
DCBA with scale 2 and offset 3 decodes back to 5. -/
theorem decode_roundtrip_witness :
    decode ⟨DataType.FLOAT32, "DCBA", none, 2, 3, none, none⟩ [0, 32831] =
      some 5 := by
  have hsplit : splitWords DataType.FLOAT32 "DCBA" 1065353216 = some [0, 32831] := by
    norm_num [splitWords, wordCount, swapBytes]
  have hre : reinterpret DataType.FLOAT32 none 1065353216 = some 1 := by
    norm_num [reinterpret, float32ToRat]
  have h := decode_roundtrip ⟨DataType.FLOAT32, "DCBA", none, 2, 3, none, none⟩
    1065353216 [0, 32831] 1 (by norm_num [wordCount]) hsplit hre
    (by norm_num [inRange])
  norm_num at h
  exact h

end CompressorDT
